import Mathlib

/-!
Verification development for a single-endpoint ETL service (`src/app.py`).

The service exposes `POST /run`.  The handler `run_job` validates a JSON
payload carrying `start_date` and `end_date`, extracts campaign statistics
from an advertising platform (`fetch_google_ads_data`), and loads the mapped
rows into a warehouse table (`load_data_to_bigquery`).

The embedding below translates the Python source shallowly:

* JSON values are the inductive `Json`; Python truthiness and the `in` /
  indexing operators (which can raise `TypeError`) are modelled explicitly,
  since the handler applies them to the parsed body outside its `try` block.
* The two vendor SDKs are opaque: an `Env` record supplies the outcome of
  client construction, of the streaming search call, and of the streaming
  insert call, exactly at the points where `app.py` invokes them.
* Python float division of the integer `cost_micros` by `1_000_000` is
  modelled with exact rational division.
* The handler returns an `Outcome` (an HTTP response, or an uncaught
  exception escaping the handler) together with a `Trace` recording every
  query submitted to the reporting service and every row batch submitted to
  the warehouse loader, so that claims of the form "the loader is never
  invoked" are statable.
-/

set_option autoImplicit false
set_option maxRecDepth 8192

/-- A Python exception, identified by its message. -/
structure PyError where
  msg : String
deriving DecidableEq, Repr

/-- A parsed JSON value, as produced by `flask.request.get_json`. -/
inductive Json where
  | null
  | bool (b : Bool)
  | num (n : Int)
  | str (s : String)
  | arr (xs : List Json)
  | obj (kvs : List (String × Json))

/-- Python truthiness of a JSON value (`not request_json`, app.py line 31). -/
def Json.truthy : Json → Bool
  | .null => false
  | .bool b => b
  | .num n => n != 0
  | .str s => s != ""
  | .arr xs => !xs.isEmpty
  | .obj kvs => !kvs.isEmpty

mutual

/-- Python `repr` of a JSON value. -/
def Json.pyRepr : Json → String
  | .null => "None"
  | .bool true => "True"
  | .bool false => "False"
  | .num n => toString n
  | .str s => "\x27" ++ s ++ "\x27"
  | .arr xs => "[" ++ String.intercalate ", " (Json.pyReprList xs) ++ "]"
  | .obj kvs => "\x7b" ++ String.intercalate ", " (Json.pyReprPairs kvs) ++ "\x7d"

/-- `repr` of the elements of a JSON array. -/
def Json.pyReprList : List Json → List String
  | [] => []
  | j :: js => j.pyRepr :: Json.pyReprList js

/-- `repr` of the entries of a JSON object. -/
def Json.pyReprPairs : List (String × Json) → List String
  | [] => []
  | (k, v) :: rest => ("\x27" ++ k ++ "\x27: " ++ v.pyRepr) :: Json.pyReprPairs rest

end

/-- Python `str` of a JSON value, as used by f-string interpolation:
identical to `repr` except on strings, which are inserted verbatim. -/
def Json.pyStr : Json → String
  | .str s => s
  | j => j.pyRepr

/-- Python membership test `k in j` (app.py line 31).  Defined for
dictionaries (key lookup), strings (substring test) and lists (element
equality, where a string literal only equals a string element); raises
`TypeError` on the remaining types. -/
def Json.pyContains (j : Json) (k : String) : Except PyError Bool :=
  match j with
  | .obj kvs => .ok (kvs.any (fun kv => kv.1 == k))
  | .str s => .ok (decide (k.data <:+: s.data))
  | .arr xs => .ok (xs.any (fun x => match x with | .str s => s == k | _ => false))
  | .num _ => .error ⟨"argument of type \x27int\x27 is not iterable"⟩
  | .bool _ => .error ⟨"argument of type \x27bool\x27 is not iterable"⟩
  | .null => .error ⟨"argument of type \x27NoneType\x27 is not iterable"⟩

/-- Python subscription `j[k]` with a string key (app.py lines 34 and 35):
dictionary lookup on objects, `TypeError` on every other type. -/
def Json.getItem (j : Json) (k : String) : Except PyError Json :=
  match j with
  | .obj kvs =>
    match kvs.find? (fun kv => kv.1 == k) with
    | some kv => .ok kv.2
    | none => .error ⟨"KeyError: \x27" ++ k ++ "\x27"⟩
  | .str _ => .error ⟨"string indices must be integers"⟩
  | .arr _ => .error ⟨"list indices must be integers or slices, not str"⟩
  | .num _ => .error ⟨"\x27int\x27 object is not subscriptable"⟩
  | .bool _ => .error ⟨"\x27bool\x27 object is not subscriptable"⟩
  | .null => .error ⟨"\x27NoneType\x27 object is not subscriptable"⟩

/-- A protobuf enum field value, carrying its numeric code and its
human-readable `.name`. -/
structure AdsEnum where
  code : Int
  name : String
deriving DecidableEq, Repr

/-- One result record of the reporting stream (`row` in app.py lines 82-94),
with the typed accessor fields the source reads. -/
structure GoogleAdsRow where
  campaignId : Int
  date : String
  costMicros : Int
  device : AdsEnum
  adNetworkType : AdsEnum
  customerId : Int
deriving DecidableEq, Repr

/-- The transformed destination-schema record (the dictionary built at
app.py lines 87-94).  `cost` is exact rational division of `cost_micros`
by `1_000_000`. -/
structure WarehouseRow where
  event_date : String
  external_customer_id : Int
  campaign_id : Int
  ad_network_type : String
  device : String
  cost : ℚ
deriving DecidableEq, Repr

/-- The opaque process environment: configuration strings fixed at process
start, and the observable behaviour of the two vendor clients at the three
points where `app.py` calls into them. -/
structure Env where
  gcp_project : String
  bq_dataset : String
  bq_table : String
  ads_customer_id : String
  /-- Outcome of `yaml.safe_load` plus `GoogleAdsClient.load_from_dict`
  (app.py lines 60-61): either a usable client or a raised exception. -/
  client_config : Except PyError Unit
  /-- `ga_service.search_stream(customer_id=..., query=...)` (line 78):
  given the customer id and the query string, either the list of result
  batches or a raised exception. -/
  search_stream : String → String → Except PyError (List (List GoogleAdsRow))
  /-- `bq_client.insert_rows_json(table_id, rows)` (line 102): either the
  per-row error descriptor list (empty means full success) or a raised
  exception. -/
  insert_rows_json : String → List WarehouseRow → Except PyError (List String)

/-- The GAQL query f-string (app.py lines 66-76), with the two date values
interpolated by Python `str` semantics. -/
def gaql_query (start_date end_date : Json) : String :=
  "\n        SELECT\n            campaign.id,\n            segments.date,\n            metrics.cost_micros,\n            segments.device,\n            segments.ad_network_type,\n            customer.id\n        FROM campaign\n        WHERE segments.date BETWEEN \x27" ++
    start_date.pyStr ++ "\x27 AND \x27" ++ end_date.pyStr ++ "\x27\n    "

/-- The GAQL skeleton before the first interpolated date. -/
def gaql_head : String :=
  "\n        SELECT\n            campaign.id,\n            segments.date,\n            metrics.cost_micros,\n            segments.device,\n            segments.ad_network_type,\n            customer.id\n        FROM campaign\n        WHERE segments.date BETWEEN \x27"

/-- The GAQL skeleton between the two interpolated dates. -/
def gaql_mid : String := "\x27 AND \x27"

/-- The GAQL skeleton after the second interpolated date. -/
def gaql_tail : String := "\x27\n    "

/-- The per-record mapping of app.py lines 84-94: one warehouse dictionary
per result row, cost converted from micros. -/
def to_warehouse_row (row : GoogleAdsRow) : WarehouseRow :=
  { event_date := row.date
    external_customer_id := row.customerId
    campaign_id := row.campaignId
    ad_network_type := row.adNetworkType.name
    device := row.device.name
    cost := (row.costMicros : ℚ) / 1000000 }

/-- The accumulation loop of app.py lines 80-95: `rows_to_insert` starts
empty and each record of each batch is appended in stream order. -/
def collect_rows (stream : List (List GoogleAdsRow)) : List WarehouseRow :=
  stream.foldl
    (fun acc batch => batch.foldl (fun acc2 row => acc2 ++ [to_warehouse_row row]) acc)
    []

/-- `fetch_google_ads_data` (app.py lines 56-95).  Returns the extraction
result together with the list of queries submitted to the reporting service
(empty when client construction already failed). -/
def fetch_google_ads_data (env : Env) (start_date end_date : Json) :
    Except PyError (List WarehouseRow) × List String :=
  match env.client_config with
  | .error e => (.error e, [])
  | .ok _ =>
    let query := gaql_query start_date end_date
    match env.search_stream env.ads_customer_id query with
    | .error e => (.error e, [query])
    | .ok stream => (.ok (collect_rows stream), [query])

/-- Python `repr` of a list of error-descriptor strings, as interpolated by
`f"BigQuery load job failed: \x7berrors\x7d"`. -/
def py_str_list_repr (errors : List String) : String :=
  "[" ++ String.intercalate ", " (errors.map (fun s => "\x27" ++ s ++ "\x27")) ++ "]"

/-- The destination table identifier `f"\x7bGCP_PROJECT\x7d.\x7bBQ_DATASET\x7d.\x7bBQ_TABLE\x7d"`
(app.py line 100). -/
def table_id (env : Env) : String :=
  env.gcp_project ++ "." ++ env.bq_dataset ++ "." ++ env.bq_table

/-- `load_data_to_bigquery` (app.py lines 98-105): submits the rows as one
insert, and raises when the destination reports a non-empty error list. -/
def load_data_to_bigquery (env : Env) (rows : List WarehouseRow) : Except PyError Unit :=
  match env.insert_rows_json (table_id env) rows with
  | .error e => .error e
  | .ok errors =>
    if errors.isEmpty then .ok ()
    else .error ⟨"BigQuery load job failed: " ++ py_str_list_repr errors⟩

/-- The handler outcome: an HTTP `(body, status)` response, or an exception
that escaped the handler (so the framework, not the handler, answers). -/
inductive Outcome where
  | response (body : String) (status : Nat)
  | crash (e : PyError)
deriving DecidableEq, Repr

/-- Observable side effects of one request: the query strings submitted to
the reporting service and the row batches submitted to the warehouse. -/
structure Trace where
  queries : List String
  loader_batches : List (List WarehouseRow)
deriving DecidableEq, Repr

/-- The 400 body of app.py line 32. -/
def invalid_request_msg : String :=
  "Invalid request: JSON payload with \x27start_date\x27 and \x27end_date\x27 is required."

/-- The `try` block of `run_job` (app.py lines 39-54): fetch, short-circuit
on an empty result, load, and map any raised exception to a 500 response. -/
def run_extract_load (env : Env) (start_date end_date : Json) : Outcome × Trace :=
  match fetch_google_ads_data env start_date end_date with
  | (.error e, qs) => (.response ("An error occurred: " ++ e.msg) 500, ⟨qs, []⟩)
  | (.ok ads_data, qs) =>
    if ads_data.isEmpty then
      (.response "Successfully completed. No data to load." 200, ⟨qs, []⟩)
    else
      match load_data_to_bigquery env ads_data with
      | .error e =>
        (.response ("An error occurred: " ++ e.msg) 500, ⟨qs, [ads_data]⟩)
      | .ok _ =>
        (.response ("Success: Loaded " ++ toString ads_data.length ++ " rows.") 200,
          ⟨qs, [ads_data]⟩)

/-- `run_job` (app.py lines 26-54).  `request_json` is the result of
`flask.request.get_json(silent=True)`: `none` when the body is absent or
unparsable.  The validation line 31 evaluates truthiness and the two
membership tests with Python short-circuiting, outside the `try` block, so
a `TypeError` there crashes the handler. -/
def run_job (env : Env) (request_json : Option Json) : Outcome × Trace :=
  match request_json with
  | none => (.response invalid_request_msg 400, ⟨[], []⟩)
  | some j =>
    if j.truthy = false then (.response invalid_request_msg 400, ⟨[], []⟩)
    else
      match j.pyContains "start_date" with
      | .error e => (.crash e, ⟨[], []⟩)
      | .ok hasStart =>
        if hasStart = false then (.response invalid_request_msg 400, ⟨[], []⟩)
        else
          match j.pyContains "end_date" with
          | .error e => (.crash e, ⟨[], []⟩)
          | .ok hasEnd =>
            if hasEnd = false then (.response invalid_request_msg 400, ⟨[], []⟩)
            else
              match j.getItem "start_date" with
              | .error e => (.crash e, ⟨[], []⟩)
              | .ok start_date =>
                match j.getItem "end_date" with
                | .error e => (.crash e, ⟨[], []⟩)
                | .ok end_date => run_extract_load env start_date end_date

/-- Whether an outcome is an HTTP response produced by the handler itself
(as opposed to an exception that escaped to the framework). -/
def Outcome.isHttpResponse : Outcome → Bool
  | .response _ _ => true
  | .crash _ => false

/-- A request body is rejected by the validation line when it is absent,
falsy, or a container (object, array or string, the types on which the
Python membership test is defined) lacking one of the two required keys
under that test: key lookup for objects, string-element equality for
arrays, substring for strings.  Truthy numbers and true are the only
payloads left out: on those the membership test raises instead. -/
def rejected_payload : Option Json → Bool
  | none => true
  | some j =>
    !j.truthy ||
      (match j with
       | .obj kvs =>
         !(kvs.any (fun kv => kv.1 == "start_date")) ||
           !(kvs.any (fun kv => kv.1 == "end_date"))
       | .arr xs =>
         !(xs.any (fun x => match x with | .str s => s == "start_date" | _ => false)) ||
           !(xs.any (fun x => match x with | .str s => s == "end_date" | _ => false))
       | .str s =>
         !(decide ("start_date".data <:+: s.data)) ||
           !(decide ("end_date".data <:+: s.data))
       | _ => false)

/-! ### Concrete fixtures -/

/-- First record of the two-record scenario of the spec (§8): cost_micros
1500000. -/
def sample_record_1 : GoogleAdsRow :=
  ⟨111, "2024-01-05", 1500000, ⟨4, "MOBILE"⟩, ⟨2, "SEARCH"⟩, 777⟩

/-- Second record of the two-record scenario: cost_micros 2000000. -/
def sample_record_2 : GoogleAdsRow :=
  ⟨112, "2024-01-06", 2000000, ⟨2, "DESKTOP"⟩, ⟨2, "SEARCH"⟩, 777⟩

/-- The request body of the spec scenario. -/
def sample_request : Json :=
  .obj [("start_date", .str "2024-01-01"), ("end_date", .str "2024-01-31")]

/-- Environment where the platform returns one batch of two records and the
warehouse insert reports no errors. -/
def env_two_records : Env :=
  ⟨"my-project", "google_ads_data", "p_CampaignStats", "1234567890", .ok (),
    fun _ _ => .ok [[sample_record_1, sample_record_2]], fun _ _ => .ok []⟩

/-- Environment where the platform returns zero records. -/
def env_empty_stream : Env :=
  ⟨"my-project", "google_ads_data", "p_CampaignStats", "1234567890", .ok (),
    fun _ _ => .ok [], fun _ _ => .ok []⟩

/-- Environment where the warehouse insert reports one per-row error. -/
def env_load_errors : Env :=
  ⟨"my-project", "google_ads_data", "p_CampaignStats", "1234567890", .ok (),
    fun _ _ => .ok [[sample_record_1, sample_record_2]],
    fun _ _ => .ok ["no such field: foo"]⟩

/-- Environment where client construction fails (bad credentials). -/
def env_bad_credentials : Env :=
  ⟨"my-project", "google_ads_data", "p_CampaignStats", "1234567890",
    .error ⟨"bad credentials"⟩,
    fun _ _ => .ok [[sample_record_1, sample_record_2]], fun _ _ => .ok []⟩

/-- Environment where the insert call itself raises. -/
def env_insert_raises : Env :=
  ⟨"my-project", "google_ads_data", "p_CampaignStats", "1234567890", .ok (),
    fun _ _ => .ok [[sample_record_1, sample_record_2]],
    fun _ _ => .error ⟨"Deadline exceeded"⟩⟩

/-! ### Helper lemmas -/

/-- Appending one batch to the accumulator in the inner loop. -/
lemma batch_foldl_eq (batch : List GoogleAdsRow) (acc : List WarehouseRow) :
    batch.foldl (fun acc2 row => acc2 ++ [to_warehouse_row row]) acc =
      acc ++ batch.map to_warehouse_row := by
  induction batch generalizing acc with
  | nil => simp
  | cons r rest ih => simp [List.foldl_cons, ih]

/-- The outer loop of `collect_rows` with an arbitrary accumulator. -/
lemma collect_rows_foldl (stream : List (List GoogleAdsRow)) (acc : List WarehouseRow) :
    stream.foldl
        (fun acc batch => batch.foldl (fun acc2 row => acc2 ++ [to_warehouse_row row]) acc)
        acc =
      acc ++ stream.flatten.map to_warehouse_row := by
  induction stream generalizing acc with
  | nil => simp
  | cons batch rest ih =>
    rw [List.foldl_cons, ih, batch_foldl_eq]
    simp

/-- `collect_rows` maps the flattened stream, in order. -/
lemma collect_rows_eq (stream : List (List GoogleAdsRow)) :
    collect_rows stream = stream.flatten.map to_warehouse_row := by
  simpa using collect_rows_foldl stream []

/-- A successful dictionary lookup implies the membership test succeeds and
the dictionary is truthy. -/
lemma obj_getItem_facts (kvs : List (String × Json)) (k : String) (v : Json)
    (h : (Json.obj kvs).getItem k = .ok v) :
    (Json.obj kvs).pyContains k = .ok true ∧ (Json.obj kvs).truthy = true := by
  simp only [Json.getItem] at h
  rcases hf : kvs.find? (fun kv => kv.1 == k) with _ | kv
  · rw [hf] at h
    exact absurd h (by simp)
  · have hmem := List.mem_of_find?_eq_some hf
    have hpred := List.find?_some hf
    have hany : kvs.any (fun kv => kv.1 == k) = true :=
      List.any_eq_true.mpr ⟨kv, hmem, hpred⟩
    constructor
    · simp only [Json.pyContains, hany]
    · have hne : kvs ≠ [] := by
        intro hnil
        rw [hnil] at hmem
        exact absurd hmem (List.not_mem_nil kv)
      simp only [Json.truthy, Bool.not_eq_true']
      exact List.isEmpty_eq_false.mpr hne

/-- After successful validation, `run_job` behaves as its `try` block on the
two looked-up date values. -/
lemma run_job_validated (env : Env) (kvs : List (String × Json)) (sd ed : Json)
    (h1 : (Json.obj kvs).getItem "start_date" = .ok sd)
    (h2 : (Json.obj kvs).getItem "end_date" = .ok ed) :
    run_job env (some (Json.obj kvs)) = run_extract_load env sd ed := by
  obtain ⟨hc1, ht⟩ := obj_getItem_facts kvs "start_date" sd h1
  obtain ⟨hc2, _⟩ := obj_getItem_facts kvs "end_date" ed h2
  simp [run_job, ht, hc1, hc2, h1, h2]

/-- With a constructed client, the single submitted query is the GAQL query
for the two date values, whatever the platform and the loader then do. -/
lemma run_extract_load_queries (env : Env) (sd ed : Json)
    (hc : env.client_config = .ok ()) :
    (run_extract_load env sd ed).2.queries = [gaql_query sd ed] := by
  rcases hs : env.search_stream env.ads_customer_id (gaql_query sd ed) with e | stream
  · simp [run_extract_load, fetch_google_ads_data, hc, hs]
  · by_cases hz : (collect_rows stream).isEmpty
    · simp [run_extract_load, fetch_google_ads_data, hc, hs, hz]
    · rcases hl : load_data_to_bigquery env (collect_rows stream) with e | u <;>
        simp [run_extract_load, fetch_google_ads_data, hc, hs, hz, hl]

/-! ### Claims -/

/-- C1: every produced warehouse row has cost equal to the record's
cost_micros divided by 1,000,000; in the concrete two-record scenario the
loader receives exactly two rows, whose costs are 1.5 and 2.0, and the
response is a 200 with body "Success: Loaded 2 rows.". -/
theorem cost_conversion_exact :
    (∀ row : GoogleAdsRow, (to_warehouse_row row).cost = (row.costMicros : ℚ) / 1000000)
    ∧ (run_job env_two_records (some sample_request)).2.loader_batches =
        [[to_warehouse_row sample_record_1, to_warehouse_row sample_record_2]]
    ∧ (to_warehouse_row sample_record_1).cost = 3 / 2
    ∧ (to_warehouse_row sample_record_2).cost = 2
    ∧ (run_job env_two_records (some sample_request)).1 =
        .response "Success: Loaded 2 rows." 200 := by
  refine ⟨fun row => rfl, rfl, ?_, ?_, rfl⟩
  · norm_num [to_warehouse_row, sample_record_1]
  · norm_num [to_warehouse_row, sample_record_2]

/-- C2: for every validated request on which the platform returns zero
records, the handler responds 200 with the "no data" body, and the loader
is never invoked (the trace records no loader call). -/
theorem no_data_skips_loader (env : Env) (kvs : List (String × Json)) (sd ed : Json)
    (stream : List (List GoogleAdsRow))
    (h1 : (Json.obj kvs).getItem "start_date" = .ok sd)
    (h2 : (Json.obj kvs).getItem "end_date" = .ok ed)
    (hc : env.client_config = .ok ())
    (hs : env.search_stream env.ads_customer_id (gaql_query sd ed) = .ok stream)
    (hz : stream.flatten = []) :
    run_job env (some (Json.obj kvs)) =
      (.response "Successfully completed. No data to load." 200,
        ⟨[gaql_query sd ed], []⟩) := by
  rw [run_job_validated env kvs sd ed h1 h2]
  have hcoll : collect_rows stream = [] := by
    rw [collect_rows_eq, hz]
    rfl
  simp [run_extract_load, fetch_google_ads_data, hc, hs, hcoll]

/-- Witness for C2 at the concrete empty-stream environment. -/
theorem no_data_skips_loader_witness :
    run_job env_empty_stream (some sample_request) =
      (.response "Successfully completed. No data to load." 200,
        ⟨[gaql_query (.str "2024-01-01") (.str "2024-01-31")], []⟩) :=
  no_data_skips_loader env_empty_stream
    [("start_date", .str "2024-01-01"), ("end_date", .str "2024-01-31")]
    (.str "2024-01-01") (.str "2024-01-31") [] rfl rfl rfl rfl rfl

/-- C3 counterexample: the JSON number 7 is a parsable payload carrying
neither date field, yet the handler does not answer 400 (nor any handler
response): the membership test raises an uncaught TypeError. -/
theorem invalid_request_counterexample :
    run_job env_two_records (some (Json.num 7)) =
      (.crash ⟨"argument of type \x27int\x27 is not iterable"⟩, ⟨[], []⟩)
    ∧ (run_job env_two_records (some (Json.num 7))).1.isHttpResponse = false :=
  ⟨rfl, rfl⟩

/-- C3 (amended): for every request whose body is absent, unparsable, falsy,
or a payload on which the membership test is defined (object, array, or
string) that lacks either date key under that test, the service responds
400 with the plain-text error body and neither the extractor nor the
loader is invoked.  (Only truthy non-container payloads, such as the JSON
number 7 or true, fall outside this guarantee: there the membership test
raises an uncaught TypeError and no 400 is produced.) -/
theorem invalid_request_rejected (env : Env) (body : Option Json)
    (h : rejected_payload body = true) :
    run_job env body = (.response invalid_request_msg 400, ⟨[], []⟩) := by
  cases body with
  | none => rfl
  | some j =>
    cases hj : j.truthy with
    | false => cases j <;> simp_all [run_job]
    | true =>
      cases j with
      | null => simp [Json.truthy] at hj
      | bool b => simp_all [rejected_payload]
      | num n => simp_all [rejected_payload]
      | str s =>
        simp only [rejected_payload, hj, Bool.not_true, Bool.false_or] at h
        cases hx : (decide ("start_date".data <:+: s.data) : Bool) with
        | false => simp [run_job, hj, Json.pyContains, hx]
        | true =>
          cases hy : (decide ("end_date".data <:+: s.data) : Bool) with
          | false => simp [run_job, hj, Json.pyContains, hx, hy]
          | true =>
            rw [hx, hy] at h
            simp at h
      | arr xs =>
        simp only [rejected_payload, hj, Bool.not_true, Bool.false_or] at h
        cases hx : xs.any (fun x => match x with | .str s => s == "start_date" | _ => false) with
        | false => simp [run_job, hj, Json.pyContains, hx]
        | true =>
          cases hy : xs.any (fun x => match x with | .str s => s == "end_date" | _ => false) with
          | false => simp [run_job, hj, Json.pyContains, hx, hy]
          | true =>
            rw [hx, hy] at h
            simp at h
      | obj kvs =>
        simp only [rejected_payload, hj, Bool.not_true, Bool.false_or] at h
        cases hx : kvs.any (fun kv => kv.1 == "start_date") with
        | false => simp [run_job, hj, Json.pyContains, hx]
        | true =>
          cases hy : kvs.any (fun kv => kv.1 == "end_date") with
          | false => simp [run_job, hj, Json.pyContains, hx, hy]
          | true =>
            rw [hx, hy] at h
            simp at h

/-- Witness for the amended C3: an object carrying only start_date is
answered 400 with no extractor or loader call. -/
theorem invalid_request_rejected_witness :
    run_job env_two_records (some (Json.obj [("start_date", Json.str "2024-01-01")])) =
      (.response invalid_request_msg 400, ⟨[], []⟩) :=
  invalid_request_rejected env_two_records
    (some (Json.obj [("start_date", Json.str "2024-01-01")])) rfl

/-- C6: the extractor output is the in-order concatenation, over batches and
records, of one warehouse row per record: no drop, duplication, resort or
aggregation. -/
theorem extraction_preserves_order (stream : List (List GoogleAdsRow)) :
    collect_rows stream = stream.flatten.map to_warehouse_row
    ∧ collect_rows stream =
        (stream.map (fun batch => batch.map to_warehouse_row)).flatten
    ∧ (collect_rows stream).length = stream.flatten.length := by
  refine ⟨collect_rows_eq stream, ?_, ?_⟩
  · rw [collect_rows_eq]
    simp
  · rw [collect_rows_eq]
    exact List.length_map _ _

/-- C7: each produced row carries exactly the six destination fields, with
device and ad_network_type taken from the segment's human-readable enum
name; the output is invariant under changes to the numeric enum codes. -/
theorem row_field_mapping (row : GoogleAdsRow) (c1 c2 : Int) :
    to_warehouse_row row =
      ⟨row.date, row.customerId, row.campaignId, row.adNetworkType.name,
        row.device.name, (row.costMicros : ℚ) / 1000000⟩
    ∧ to_warehouse_row
        { row with
          device := ⟨c1, row.device.name⟩
          adNetworkType := ⟨c2, row.adNetworkType.name⟩ } =
      to_warehouse_row row :=
  ⟨rfl, rfl⟩

/-- C10: a parsable truthy non-container body (the number 5, or true) makes
the membership test raise an uncaught TypeError outside the try block, so
the handler produces no HTTP response of its own at all (neither the 400
validation body nor the handled 500 body). -/
theorem truthy_scalar_payload_crashes :
    run_job env_two_records (some (Json.num 5)) =
      (.crash ⟨"argument of type \x27int\x27 is not iterable"⟩, ⟨[], []⟩)
    ∧ run_job env_two_records (some (Json.bool true)) =
      (.crash ⟨"argument of type \x27bool\x27 is not iterable"⟩, ⟨[], []⟩)
    ∧ (run_job env_two_records (some (Json.num 5))).1.isHttpResponse = false :=
  ⟨rfl, rfl, rfl⟩

/-- C4: when the warehouse insert call returns a non-empty per-row error
list for a non-empty row batch, the loader raises a failure carrying the
destination's reported errors and the handler answers 500 with a body
containing that description; no partial-success response exists. -/
theorem load_errors_fail_job (env : Env) (kvs : List (String × Json)) (sd ed : Json)
    (stream : List (List GoogleAdsRow)) (errors : List String)
    (h1 : (Json.obj kvs).getItem "start_date" = .ok sd)
    (h2 : (Json.obj kvs).getItem "end_date" = .ok ed)
    (hc : env.client_config = .ok ())
    (hs : env.search_stream env.ads_customer_id (gaql_query sd ed) = .ok stream)
    (hnz : stream.flatten ≠ [])
    (he : env.insert_rows_json (table_id env) (collect_rows stream) = .ok errors)
    (hne : errors ≠ []) :
    run_job env (some (Json.obj kvs)) =
      (.response
          ("An error occurred: " ++ ("BigQuery load job failed: " ++ py_str_list_repr errors))
          500,
        ⟨[gaql_query sd ed], [collect_rows stream]⟩) := by
  rw [run_job_validated env kvs sd ed h1 h2]
  have hcoll : (collect_rows stream).isEmpty = false := by
    rw [collect_rows_eq, List.isEmpty_eq_false]
    simpa using hnz
  have hload : load_data_to_bigquery env (collect_rows stream) =
      .error ⟨"BigQuery load job failed: " ++ py_str_list_repr errors⟩ := by
    simp [load_data_to_bigquery, he, List.isEmpty_eq_false.mpr hne]
  simp [run_extract_load, fetch_google_ads_data, hc, hs, hcoll, hload]

/-- Witness for C4 at the concrete one-error environment. -/
theorem load_errors_fail_job_witness :
    run_job env_load_errors (some sample_request) =
      (.response
          ("An error occurred: " ++
            ("BigQuery load job failed: " ++ py_str_list_repr ["no such field: foo"]))
          500,
        ⟨[gaql_query (.str "2024-01-01") (.str "2024-01-31")],
          [collect_rows [[sample_record_1, sample_record_2]]]⟩) :=
  load_errors_fail_job env_load_errors
    [("start_date", .str "2024-01-01"), ("end_date", .str "2024-01-31")]
    (.str "2024-01-01") (.str "2024-01-31") [[sample_record_1, sample_record_2]]
    ["no such field: foo"] rfl rfl rfl rfl (by simp) rfl (by simp)

/-- C5: for every non-empty extracted sequence on which the insert reports
zero errors, the handler answers 200 with body "Success: Loaded N rows.",
where N is the exact number of extracted records. -/
theorem success_reports_row_count (env : Env) (kvs : List (String × Json)) (sd ed : Json)
    (stream : List (List GoogleAdsRow))
    (h1 : (Json.obj kvs).getItem "start_date" = .ok sd)
    (h2 : (Json.obj kvs).getItem "end_date" = .ok ed)
    (hc : env.client_config = .ok ())
    (hs : env.search_stream env.ads_customer_id (gaql_query sd ed) = .ok stream)
    (hnz : stream.flatten ≠ [])
    (hok : env.insert_rows_json (table_id env) (collect_rows stream) = .ok []) :
    run_job env (some (Json.obj kvs)) =
      (.response ("Success: Loaded " ++ toString stream.flatten.length ++ " rows.") 200,
        ⟨[gaql_query sd ed], [collect_rows stream]⟩) := by
  rw [run_job_validated env kvs sd ed h1 h2]
  have hcoll : (collect_rows stream).isEmpty = false := by
    rw [collect_rows_eq, List.isEmpty_eq_false]
    simpa using hnz
  have hload : load_data_to_bigquery env (collect_rows stream) = .ok () := by
    simp [load_data_to_bigquery, hok]
  have hlen : (collect_rows stream).length = stream.flatten.length := by
    rw [collect_rows_eq]
    exact List.length_map _ _
  simp [run_extract_load, fetch_google_ads_data, hc, hs, hcoll, hload, hlen]

/-- Witness for C5 at the concrete two-record environment. -/
theorem success_reports_row_count_witness :
    run_job env_two_records (some sample_request) =
      (.response
          ("Success: Loaded " ++ toString ([[sample_record_1, sample_record_2]].flatten).length ++
            " rows.")
          200,
        ⟨[gaql_query (.str "2024-01-01") (.str "2024-01-31")],
          [collect_rows [[sample_record_1, sample_record_2]]]⟩) :=
  success_reports_row_count env_two_records
    [("start_date", .str "2024-01-01"), ("end_date", .str "2024-01-31")]
    (.str "2024-01-01") (.str "2024-01-31") [[sample_record_1, sample_record_2]]
    rfl rfl rfl rfl (by simp) rfl

/-- C8: for every validated request with string dates, the query submitted
to the reporting service is the GAQL string with both dates interpolated
verbatim inside an inclusive BETWEEN range, selecting campaign id, date,
cost, device segment, network-type segment and account id. -/
theorem query_interpolation (env : Env) (kvs : List (String × Json)) (s e : String)
    (h1 : (Json.obj kvs).getItem "start_date" = .ok (.str s))
    (h2 : (Json.obj kvs).getItem "end_date" = .ok (.str e))
    (hc : env.client_config = .ok ()) :
    (run_job env (some (Json.obj kvs))).2.queries = [gaql_query (.str s) (.str e)]
    ∧ gaql_query (.str s) (.str e) = gaql_head ++ s ++ gaql_mid ++ e ++ gaql_tail
    ∧ (∃ l r, gaql_query (.str s) (.str e) = l ++ "campaign.id" ++ r)
    ∧ (∃ l r, gaql_query (.str s) (.str e) = l ++ "segments.date" ++ r)
    ∧ (∃ l r, gaql_query (.str s) (.str e) = l ++ "metrics.cost_micros" ++ r)
    ∧ (∃ l r, gaql_query (.str s) (.str e) = l ++ "segments.device" ++ r)
    ∧ (∃ l r, gaql_query (.str s) (.str e) = l ++ "segments.ad_network_type" ++ r)
    ∧ (∃ l r, gaql_query (.str s) (.str e) = l ++ "customer.id" ++ r)
    ∧ (∃ l r, gaql_query (.str s) (.str e) =
        l ++ ("BETWEEN \x27" ++ s ++ "\x27 AND \x27" ++ e ++ "\x27") ++ r) := by
  refine ⟨?_, rfl, ?_, ?_, ?_, ?_, ?_, ?_, ?_⟩
  · rw [run_job_validated env kvs (.str s) (.str e) h1 h2]
    exact run_extract_load_queries env (.str s) (.str e) hc
  · exact ⟨"\n        SELECT\n            ",
      ",\n            segments.date,\n            metrics.cost_micros,\n            segments.device,\n            segments.ad_network_type,\n            customer.id\n        FROM campaign\n        WHERE segments.date BETWEEN \x27" ++
        s ++ gaql_mid ++ e ++ gaql_tail, rfl⟩
  · exact ⟨"\n        SELECT\n            campaign.id,\n            ",
      ",\n            metrics.cost_micros,\n            segments.device,\n            segments.ad_network_type,\n            customer.id\n        FROM campaign\n        WHERE segments.date BETWEEN \x27" ++
        s ++ gaql_mid ++ e ++ gaql_tail, rfl⟩
  · exact ⟨"\n        SELECT\n            campaign.id,\n            segments.date,\n            ",
      ",\n            segments.device,\n            segments.ad_network_type,\n            customer.id\n        FROM campaign\n        WHERE segments.date BETWEEN \x27" ++
        s ++ gaql_mid ++ e ++ gaql_tail, rfl⟩
  · exact ⟨"\n        SELECT\n            campaign.id,\n            segments.date,\n            metrics.cost_micros,\n            ",
      ",\n            segments.ad_network_type,\n            customer.id\n        FROM campaign\n        WHERE segments.date BETWEEN \x27" ++
        s ++ gaql_mid ++ e ++ gaql_tail, rfl⟩
  · exact ⟨"\n        SELECT\n            campaign.id,\n            segments.date,\n            metrics.cost_micros,\n            segments.device,\n            ",
      ",\n            customer.id\n        FROM campaign\n        WHERE segments.date BETWEEN \x27" ++
        s ++ gaql_mid ++ e ++ gaql_tail, rfl⟩
  · exact ⟨"\n        SELECT\n            campaign.id,\n            segments.date,\n            metrics.cost_micros,\n            segments.device,\n            segments.ad_network_type,\n            ",
      "\n        FROM campaign\n        WHERE segments.date BETWEEN \x27" ++
        s ++ gaql_mid ++ e ++ gaql_tail, rfl⟩
  · refine ⟨"\n        SELECT\n            campaign.id,\n            segments.date,\n            metrics.cost_micros,\n            segments.device,\n            segments.ad_network_type,\n            customer.id\n        FROM campaign\n        WHERE segments.date ",
      "\n    ", ?_⟩
    simp only [gaql_query, Json.pyStr, String.append_assoc]
    rfl

/-- Witness for C8: the concrete scenario submits exactly the interpolated
query for the two sample dates. -/
theorem query_interpolation_witness :
    (run_job env_two_records (some sample_request)).2.queries =
      [gaql_query (.str "2024-01-01") (.str "2024-01-31")] :=
  (query_interpolation env_two_records
    [("start_date", .str "2024-01-01"), ("end_date", .str "2024-01-31")]
    "2024-01-01" "2024-01-31" rfl rfl rfl).1

/-- C9: a client-construction failure fails the fetch; any extraction
failure yields a 500 with the error's description and no loader call; any
load-time exception yields a 500 with the error's description, with one
query and one loader call (no retry). -/
theorem failures_yield_500 :
    (∀ (env : Env) (sd ed : Json) (e : PyError),
        env.client_config = .error e →
          (fetch_google_ads_data env sd ed).1 = .error e)
    ∧ (∀ (env : Env) (kvs : List (String × Json)) (sd ed : Json) (e : PyError),
        (Json.obj kvs).getItem "start_date" = .ok sd →
        (Json.obj kvs).getItem "end_date" = .ok ed →
        (fetch_google_ads_data env sd ed).1 = .error e →
        run_job env (some (Json.obj kvs)) =
          (.response ("An error occurred: " ++ e.msg) 500,
            ⟨(fetch_google_ads_data env sd ed).2, []⟩))
    ∧ (∀ (env : Env) (kvs : List (String × Json)) (sd ed : Json)
          (stream : List (List GoogleAdsRow)) (e : PyError),
        (Json.obj kvs).getItem "start_date" = .ok sd →
        (Json.obj kvs).getItem "end_date" = .ok ed →
        env.client_config = .ok () →
        env.search_stream env.ads_customer_id (gaql_query sd ed) = .ok stream →
        stream.flatten ≠ [] →
        env.insert_rows_json (table_id env) (collect_rows stream) = .error e →
        run_job env (some (Json.obj kvs)) =
          (.response ("An error occurred: " ++ e.msg) 500,
            ⟨[gaql_query sd ed], [collect_rows stream]⟩)) := by
  refine ⟨?_, ?_, ?_⟩
  · intro env sd ed e hc
    simp [fetch_google_ads_data, hc]
  · intro env kvs sd ed e h1 h2 hf
    rw [run_job_validated env kvs sd ed h1 h2]
    rcases hfe : fetch_google_ads_data env sd ed with ⟨res, qs⟩
    rw [hfe] at hf
    simp only [Prod.fst] at hf
    subst hf
    simp [run_extract_load, hfe]
  · intro env kvs sd ed stream e h1 h2 hc hs hnz he
    rw [run_job_validated env kvs sd ed h1 h2]
    have hcoll : (collect_rows stream).isEmpty = false := by
      rw [collect_rows_eq, List.isEmpty_eq_false]
      simpa using hnz
    have hload : load_data_to_bigquery env (collect_rows stream) = .error e := by
      simp [load_data_to_bigquery, he]
    simp [run_extract_load, fetch_google_ads_data, hc, hs, hcoll, hload]

/-- Witness for C9: bad credentials at client construction yield the 500
body with the underlying description, with no loader call. -/
theorem failures_yield_500_witness :
    run_job env_bad_credentials (some sample_request) =
      (.response "An error occurred: bad credentials" 500, ⟨[], []⟩) :=
  failures_yield_500.2.1 env_bad_credentials
    [("start_date", .str "2024-01-01"), ("end_date", .str "2024-01-31")]
    (.str "2024-01-01") (.str "2024-01-31") ⟨"bad credentials"⟩ rfl rfl rfl
